import Mathlib

/-!
Verification of the `brain-stuff` neural-signal generator against its
specification.

The repository contains two C++ versions of `generateSignals`:

* a trajectory version (`NeuralSignalGenerator::generateSignals(startCoords,
  endCoords, numSignals, noiseType, noiseAmplitude)`), which interpolates the
  x, y, z components of an 8-float start/end pose over a time loop and packs
  the result into `std::vector<std::array<int, 12>>`;
* a cluster version (`generateSignals(startCoords, endCoords, numSignals,
  clusterStrength)`), which fills the 12 channels from five "clusters" of
  channel indices, clamps, and perturbs.

Embedding conventions, chosen to mirror the C++ source:

* C++ `float` values are modelled as `ℚ`.  All rational constants appearing in
  the settled claims are far enough from integer boundaries that `float`
  rounding cannot change any truncation result, so exact arithmetic is a
  faithful model of the concrete executions considered here.
* `static_cast<int>` on a float is truncation toward zero (`cppTrunc`).
* `std::array<int, 12>` is modelled as a 12-element `List ℤ`; an assignment
  `signals[i][k] = v` is an update of position `k`.  In the trajectory step the
  per-iteration writes do not read the freshly written cells, so the body is
  written as the simultaneous 12-element rebuild it denotes.
* The Mersenne-twister draws are modelled as explicit indexed families of
  rationals (one family per `dist(gen)`-style call site, indexed by signal,
  time step / cluster, and channel).  A `std::normal_distribution(0, a)` or
  `std::uniform_real_distribution(-a, a)` draw is `a * η …` where `η` is the
  corresponding standard draw; in particular amplitude 0 forces the draw to 0,
  as in the C++ library distributions.
* The read `startCoords[j + 3]` at `j = 5` is out of bounds for the 8-element
  `std::array<float, 8>`.  The main embedding gives that undefined read an
  explicit junk parameter `oob`; a second, `Option`-valued embedding
  (`…Checked`) makes every index checked and is used for the safety claim.
-/

namespace BrainStuff

/-- C++ `static_cast<int>` applied to a float value: truncation toward zero. -/
def cppTrunc (q : ℚ) : ℤ := if 0 ≤ q then ⌊q⌋ else ⌈q⌉

/-! ### Trajectory-mode generator

Source: `generateSignals(startCoords, endCoords, numSignals, noiseType,
noiseAmplitude)` (trajectory version), lines 114-162 of
`src/src/neural_signal_generator.cpp`. -/

/-- `int numSamples = static_cast<int>(endCoords[7] - startCoords[7]) / m_samplePeriod + 1;`
(float subtraction, truncating cast, C++ `int` division; for the inputs of the
settled claims the dividend is non-negative, where C++ and Euclidean division
agree). -/
def numSamplesTraj (sc ec : List ℚ) (oob : ℚ) (P : ℕ) : ℤ :=
  cppTrunc (ec.getD 7 oob - sc.getD 7 oob) / (P : ℤ) + 1

/-- Number of iterations of the time loop `for (t = P; t <= endCoords[7]; t += P)`
with `P = m_samplePeriod ≥ 1`: the largest `k` with `k * P ≤ endCoords[7]`
(0 if none), i.e. `⌊endCoords[7] / P⌋` clipped to ℕ. -/
def trajIterCount (endT : ℚ) (P : ℕ) : ℕ := (⌊endT / (P : ℚ)⌋).toNat

/-- The list of `t` values taken by the time loop: `P, 2P, …`. -/
def trajTimes (endT : ℚ) (P : ℕ) : List ℕ :=
  (List.range (trajIterCount endT P)).map fun j => (j + 1) * P

/-- Per-signal initialization loop
`for (j = 0; j < 6; ++j) signals[i][j] = static_cast<int>(startCoords[j+3] * 1024);`
acting on a zero-initialized `std::array<int, 12>`.  The read `startCoords[8]`
is out of bounds; `oob` stands for the junk float it yields. -/
def trajInit (sc : List ℚ) (oob : ℚ) : List ℤ :=
  [cppTrunc (sc.getD 3 oob * 1024), cppTrunc (sc.getD 4 oob * 1024),
   cppTrunc (sc.getD 5 oob * 1024), cppTrunc (sc.getD 6 oob * 1024),
   cppTrunc (sc.getD 7 oob * 1024), cppTrunc (sc.getD 8 oob * 1024),
   0, 0, 0, 0, 0, 0]

/-- `startCoords[k] + (endCoords[k] - startCoords[k]) * static_cast<float>(t) / numSamples`. -/
def trajLerp (sc ec : List ℚ) (oob : ℚ) (ns : ℤ) (k t : ℕ) : ℚ :=
  sc.getD k oob + (ec.getD k oob - sc.getD k oob) * (t : ℚ) / (ns : ℚ)

/-- One iteration of the time loop at time `t` for signal `i`: the noise branch
writes channels 0-2 (only for a recognized `noiseType`), then the update loop
`signals[i][j + 3] = static_cast<int>(x * 1024)` for `j = 0 … 5` writes
channels 3-8.  `ηg`/`ηu` are the standard gaussian / uniform draw families. -/
def trajStep (sc ec : List ℚ) (oob : ℚ) (ns : ℤ) (kind : String) (a : ℚ)
    (ηg ηu : ℕ → ℕ → ℕ → ℚ) (i : ℕ) (s : List ℤ) (t : ℕ) : List ℤ :=
  let x := trajLerp sc ec oob ns 0 t
  let y := trajLerp sc ec oob ns 1 t
  let z := trajLerp sc ec oob ns 2 t
  let ch := fun (k : ℕ) (c : ℚ) =>
    if kind = "gaussian" then cppTrunc ((c + a * ηg i t k) * 1024)
    else if kind = "uniform" then cppTrunc ((c + a * ηu i t k) * 1024)
    else s.getD k 0
  let w := cppTrunc (x * 1024)
  [ch 0 x, ch 1 y, ch 2 z, w, w, w, w, w, w, s.getD 9 0, s.getD 10 0, s.getD 11 0]

/-- The body of the signal loop for signal `i`: initialization followed by the
time loop. -/
def trajSignal (sc ec : List ℚ) (oob : ℚ) (P : ℕ) (kind : String) (a : ℚ)
    (ηg ηu : ℕ → ℕ → ℕ → ℚ) (i : ℕ) : List ℤ :=
  (trajTimes (ec.getD 7 oob) P).foldl
    (trajStep sc ec oob (numSamplesTraj sc ec oob P) kind a ηg ηu i)
    (trajInit sc oob)

/-- The trajectory version of `generateSignals`: a batch of `n` signals, each a
single `std::array<int, 12>` that the time loop updates in place. -/
def generateSignalsTraj (sc ec : List ℚ) (oob : ℚ) (n P : ℕ) (kind : String)
    (a : ℚ) (ηg ηu : ℕ → ℕ → ℕ → ℚ) : List (List ℤ) :=
  (List.range n).map (trajSignal sc ec oob P kind a ηg ηu)

/-! ### Checked trajectory-mode generator

The same code with every array subscript modelled as an `Option`-returning
checked access (`List.get?`), used for the out-of-bounds safety claim. -/

/-- Option-valued mapping over the signal indices, assembling the batch. -/
def signalLoopChecked (f : ℕ → Option (List ℤ)) : List ℕ → Option (List (List ℤ))
  | [] => some []
  | i :: rest => (f i).bind fun s => (signalLoopChecked f rest).map fun b => s :: b

/-- Checked initialization loop: `signals[i][j] = int(startCoords[j+3] * 1024)`
for `j = 0 … 5`, failing on any out-of-range subscript. -/
def trajInitChecked (sc : List ℚ) : Option (List ℤ) :=
  (List.range 6).foldlM
    (fun s j => (sc.get? (j + 3)).map fun v => s.set j (cppTrunc (v * 1024)))
    (List.replicate 12 0)

/-- Checked iteration of the time loop (all reads of `startCoords[0..2]`,
`endCoords[0..2]` checked; the writes are in bounds). -/
def trajStepChecked (sc ec : List ℚ) (ns : ℤ) (kind : String) (a : ℚ)
    (ηg ηu : ℕ → ℕ → ℕ → ℚ) (i : ℕ) (s : List ℤ) (t : ℕ) : Option (List ℤ) := do
  let s0 ← sc.get? 0
  let e0 ← ec.get? 0
  let s1 ← sc.get? 1
  let e1 ← ec.get? 1
  let s2 ← sc.get? 2
  let e2 ← ec.get? 2
  let x := s0 + (e0 - s0) * (t : ℚ) / (ns : ℚ)
  let y := s1 + (e1 - s1) * (t : ℚ) / (ns : ℚ)
  let z := s2 + (e2 - s2) * (t : ℚ) / (ns : ℚ)
  let ch := fun (k : ℕ) (c : ℚ) =>
    if kind = "gaussian" then cppTrunc ((c + a * ηg i t k) * 1024)
    else if kind = "uniform" then cppTrunc ((c + a * ηu i t k) * 1024)
    else s.getD k 0
  let w := cppTrunc (x * 1024)
  pure [ch 0 x, ch 1 y, ch 2 z, w, w, w, w, w, w, s.getD 9 0, s.getD 10 0, s.getD 11 0]

/-- Checked per-signal body. -/
def trajSignalChecked (sc ec : List ℚ) (ns : ℤ) (P : ℕ) (kind : String) (a : ℚ)
    (ηg ηu : ℕ → ℕ → ℕ → ℚ) (i : ℕ) : Option (List ℤ) := do
  let endT ← ec.get? 7
  let init ← trajInitChecked sc
  (trajTimes endT P).foldlM (trajStepChecked sc ec ns kind a ηg ηu i) init

/-- Checked trajectory generator: the whole computation in the `Option` monad,
`none` as soon as any subscript is out of range. -/
def generateSignalsTrajChecked (sc ec : List ℚ) (n P : ℕ) (kind : String)
    (a : ℚ) (ηg ηu : ℕ → ℕ → ℕ → ℚ) : Option (List (List ℤ)) := do
  let st ← sc.get? 7
  let et ← ec.get? 7
  let ns := cppTrunc (et - st) / (P : ℤ) + 1
  signalLoopChecked (trajSignalChecked sc ec ns P kind a ηg ηu) (List.range n)

/-! ### Cluster-mode generator

Source: `generateSignals(startCoords, endCoords, numSignals, clusterStrength)`
(cluster version), lines 15-66 of `src/src/neural_signal_generator.cpp`.
`sinF`/`cosF` abstract the C++ `std::sin`/`std::cos` on floats. -/

/-- `const int clusterSizes[] = {4, 3, 2, 2, 1};` -/
def clusterSizes : List ℕ := [4, 3, 2, 2, 1]

/-- `clusters[i].push_back(i * clusterSizes[i] + j);` for `j < clusterSizes[i]`,
`i < numClusters = 5`. -/
def clusters : List (List ℕ) :=
  (List.range 5).map fun i =>
    (List.range (clusterSizes.getD i 0)).map fun j => i * clusterSizes.getD i 0 + j

/-- `pow(sin(r1), 2) * clusterStrength + pow(cos(r2), 2) * (1 - clusterStrength)`;
`r1` and `r2` are two independent `dist(gen)` draws. -/
def clusterActivation (sinF cosF : ℚ → ℚ) (s r1 r2 : ℚ) : ℚ :=
  sinF r1 ^ 2 * s + cosF r2 ^ 2 * (1 - s)

/-- Fill loop of one snapshot: for each cluster `j` and each member channel (at
position `p` inside the cluster), `signals[i][neuron] =
int(clusterActivation[j] * (dist(gen) * 100 + 50))`, the `dist(gen)` draws
given by the family `gu i j p`.  Starts from the zero-initialized array. -/
def rawSnapshot (act : ℕ → ℚ) (gu : ℕ → ℕ → ℕ → ℚ) (i : ℕ) : List ℤ :=
  (List.range 5).foldl
    (fun s j =>
      (clusters.getD j []).enum.foldl
        (fun s2 pn => s2.set pn.2 (cppTrunc (act j * (gu i j pn.1 * 100 + 50)))) s)
    (List.replicate 12 0)

/-- `neuron = std::max(0, std::min(neuron, 200));` -/
def clampChannel (v : ℤ) : ℤ := max 0 (min v 200)

/-- The post-processing loop over the 12 channels (channel counter `c`): clamp,
then with the draw `gp i c < 0.1` add `gq i c * 50 - 25` (C++ `int += float`,
truncating on the store). -/
def postProcess (gp gq : ℕ → ℕ → ℚ) (i : ℕ) : ℕ → List ℤ → List ℤ
  | _, [] => []
  | c, v :: rest =>
      let w := clampChannel v
      (if gp i c < 1 / 10 then cppTrunc ((w : ℚ) + (gq i c * 50 - 25)) else w)
        :: postProcess gp gq i (c + 1) rest

/-- One generated snapshot (the cluster version of a "signal"). -/
def genSnapshot (sinF cosF : ℚ → ℚ) (s : ℚ) (gs gc : ℕ → ℕ → ℚ)
    (gu : ℕ → ℕ → ℕ → ℚ) (gp gq : ℕ → ℕ → ℚ) (i : ℕ) : List ℤ :=
  postProcess gp gq i 0
    (rawSnapshot (fun j => clusterActivation sinF cosF s (gs i j) (gc i j)) gu i)

/-- The cluster version of `generateSignals`.  (Its `startCoords`/`endCoords`
parameters are never read by the C++ body and are omitted.) -/
def generateSignalsCluster (sinF cosF : ℚ → ℚ) (s : ℚ) (n : ℕ)
    (gs gc : ℕ → ℕ → ℚ) (gu : ℕ → ℕ → ℕ → ℚ) (gp gq : ℕ → ℕ → ℚ) :
    List (List ℤ) :=
  (List.range n).map (genSnapshot sinF cosF s gs gc gu gp gq)

/-! ### Concrete draw families used in closed statements -/

/-- The all-zero draw family (3 indices). -/
def zeroDraws : ℕ → ℕ → ℕ → ℚ := fun _ _ _ => 0

/-- The constant-`1/2` draw family (2 indices). -/
def halfDraws : ℕ → ℕ → ℚ := fun _ _ => 1 / 2

/-- The constant-`1/2` draw family (3 indices). -/
def halfDraws3 : ℕ → ℕ → ℕ → ℚ := fun _ _ _ => 1 / 2

/-- Stand-in for float `sin`/`cos` in closed statements (the settled facts do
not depend on the choice). -/
def ratId : ℚ → ℚ := fun q => q

/-! ### Helper lemmas -/

theorem le_cppTrunc {b : ℤ} {q : ℚ} (h : (b : ℚ) ≤ q) : b ≤ cppTrunc q := by
  unfold cppTrunc
  split
  · exact Int.le_floor.mpr h
  · exact_mod_cast h.trans (Int.le_ceil q)

theorem cppTrunc_le {b : ℤ} {q : ℚ} (h : q ≤ (b : ℚ)) : cppTrunc q ≤ b := by
  unfold cppTrunc
  split
  · exact (Int.floor_le_floor h).trans_eq (Int.floor_intCast b)
  · exact Int.ceil_le.mpr h

theorem clampChannel_bounds (v : ℤ) : 0 ≤ clampChannel v ∧ clampChannel v ≤ 200 :=
  ⟨le_max_left 0 _, max_le (by norm_num) (min_le_right v 200)⟩

theorem postProcess_bounds (gp gq : ℕ → ℕ → ℚ) (i : ℕ)
    (hq : ∀ c, 0 ≤ gq i c ∧ gq i c ≤ 1) :
    ∀ (l : List ℤ) (c : ℕ), ∀ v ∈ postProcess gp gq i c l, -25 ≤ v ∧ v ≤ 225 := by
  intro l
  induction l with
  | nil => intro c v hv; simp [postProcess] at hv
  | cons x rest ih =>
    intro c v hv
    simp only [postProcess, List.mem_cons] at hv
    rcases hv with rfl | hv
    · obtain ⟨hw0, hw200⟩ := clampChannel_bounds x
      obtain ⟨hq0, hq1⟩ := hq c
      have hw0q : (0 : ℚ) ≤ (clampChannel x : ℚ) := by exact_mod_cast hw0
      have hw200q : (clampChannel x : ℚ) ≤ 200 := by exact_mod_cast hw200
      split
      · constructor
        · refine le_cppTrunc ?_
          push_cast
          linarith
        · refine cppTrunc_le ?_
          push_cast
          linarith
      · exact ⟨by linarith, by linarith⟩
    · exact ih (c + 1) v hv

theorem trajIterCount_eq_zero {endT : ℚ} {P : ℕ} (hP : 1 ≤ P) (h : endT < (P : ℚ)) :
    trajIterCount endT P = 0 := by
  unfold trajIterCount
  apply Int.toNat_of_nonpos
  have hP0 : (0 : ℚ) < (P : ℚ) := by exact_mod_cast Nat.lt_of_lt_of_le Nat.zero_lt_one hP
  have h1 : endT / (P : ℚ) < 1 := (div_lt_one hP0).mpr h
  have h2 : ⌊endT / (P : ℚ)⌋ < 1 := Int.floor_lt.mpr (by exact_mod_cast h1)
  omega

/-- With amplitude 0 the noise draws do not influence the trajectory output. -/
theorem generateSignalsTraj_amp_zero (sc ec : List ℚ) (oob : ℚ) (n P : ℕ)
    (kind : String) (ηg ηu : ℕ → ℕ → ℕ → ℚ) :
    generateSignalsTraj sc ec oob n P kind 0 ηg ηu
      = generateSignalsTraj sc ec oob n P kind 0 zeroDraws zeroDraws := by
  unfold generateSignalsTraj trajSignal
  have h : ∀ i, trajStep sc ec oob (numSamplesTraj sc ec oob P) kind 0 ηg ηu i
      = trajStep sc ec oob (numSamplesTraj sc ec oob P) kind 0 zeroDraws zeroDraws i := by
    intro i
    funext s t
    simp [trajStep, zeroDraws]
  simp only [h]

/-- Channels 0-2 are untouched by a fold of steps that preserve them. -/
theorem trajFoldPreserve (f : List ℤ → ℕ → List ℤ)
    (hf : ∀ s t, (f s t).getD 0 0 = s.getD 0 0 ∧ (f s t).getD 1 0 = s.getD 1 0 ∧
      (f s t).getD 2 0 = s.getD 2 0) :
    ∀ (ts : List ℕ) (s : List ℤ),
      (ts.foldl f s).getD 0 0 = s.getD 0 0 ∧ (ts.foldl f s).getD 1 0 = s.getD 1 0 ∧
        (ts.foldl f s).getD 2 0 = s.getD 2 0 := by
  intro ts
  induction ts with
  | nil => intro s; exact ⟨rfl, rfl, rfl⟩
  | cons t ts ih =>
    intro s
    obtain ⟨i0, i1, i2⟩ := ih (f s t)
    obtain ⟨j0, j1, j2⟩ := hf s t
    simp only [List.foldl_cons]
    exact ⟨i0.trans j0, i1.trans j1, i2.trans j2⟩

theorem clusterActivation_strength_one (sinF cosF : ℚ → ℚ) (r1 r2 : ℚ) :
    clusterActivation sinF cosF 1 r1 r2 = sinF r1 ^ 2 := by
  unfold clusterActivation
  ring

/-! ### Claims -/

/-- C2: the claim says the cluster partition is 5 contiguous blocks of sizes
{4,3,2,2,1} covering all 12 channels without gaps or overlaps.  The code's
index formula `i * clusterSizes[i] + j` instead yields
`{0,1,2,3}, {3,4,5}, {4,5}, {6,7}, {4}`: channel 3 lies in two clusters,
channels 8-11 lie in none.  This theorem evaluates the partition the code
builds and exhibits both defects. -/
theorem c2_partition_gaps_and_overlaps :
    clusters = [[0, 1, 2, 3], [3, 4, 5], [4, 5], [6, 7], [4]] ∧
    (8 ∈ clusters.foldr (· ++ ·) []) = False ∧
    (3 ∈ clusters.getD 0 [] ∧ 3 ∈ clusters.getD 1 []) := by
  refine ⟨by decide, by decide, by decide, by decide⟩

/-- C6: in cluster mode every post-clamp pre-perturbation channel value lies in
[0, 200], and every final channel value (after the 10%-probability perturbation
`gq * 50 - 25`, whose draw `gq` is uniform on [0,1]) lies in [-25, 225]. -/
theorem c6_cluster_output_bounds (sinF cosF : ℚ → ℚ) (s : ℚ) (n : ℕ)
    (gs gc : ℕ → ℕ → ℚ) (gu : ℕ → ℕ → ℕ → ℚ) (gp gq : ℕ → ℕ → ℚ)
    (hq : ∀ i c, 0 ≤ gq i c ∧ gq i c ≤ 1) :
    (∀ i c, 0 ≤ clampChannel ((rawSnapshot
          (fun j => clusterActivation sinF cosF s (gs i j) (gc i j)) gu i).getD c 0) ∧
        clampChannel ((rawSnapshot
          (fun j => clusterActivation sinF cosF s (gs i j) (gc i j)) gu i).getD c 0) ≤ 200) ∧
    ∀ snap ∈ generateSignalsCluster sinF cosF s n gs gc gu gp gq,
      ∀ v ∈ snap, -25 ≤ v ∧ v ≤ 225 := by
  constructor
  · intro i c
    exact clampChannel_bounds _
  · intro snap hsnap v hv
    simp only [generateSignalsCluster, List.mem_map] at hsnap
    obtain ⟨i, _, rfl⟩ := hsnap
    exact postProcess_bounds gp gq i (fun c => hq i c) _ 0 v hv

/-- C8 (amended): the reference code performs no configuration validation at
all.  For every configuration — including invalid ones such as
`clusterStrength` outside [0,1], negative `noiseAmplitude`, or
`numSignals = 0` — both generators run to completion and return an ordinary
batch of `numSignals` entries; no error value exists in their signatures.
(Only `samplePeriod ≥ 1` is assumed: a non-positive sample period makes the
C++ time loop diverge, which this total embedding does not model.) -/
theorem c8_no_validation (sinF cosF : ℚ → ℚ) (s : ℚ) (gs gc : ℕ → ℕ → ℚ)
    (gu : ℕ → ℕ → ℕ → ℚ) (gp gq : ℕ → ℕ → ℚ) (sc ec : List ℚ) (oob a : ℚ)
    (kind : String) (ηg ηu : ℕ → ℕ → ℕ → ℚ) (n P : ℕ) (hP : 1 ≤ P) :
    (generateSignalsCluster sinF cosF s n gs gc gu gp gq).length = n ∧
    (generateSignalsTraj sc ec oob n P kind a ηg ηu).length = n := by
  constructor
  · simp [generateSignalsCluster]
  · simp [generateSignalsTraj]

/-- C9: in both strategies the returned batch has exactly `numSignals`
entries, for every valid input (positive `numSignals` and `samplePeriod`,
non-negative amplitude, `clusterStrength` in [0,1], end time not before
start time). -/
theorem c9_batch_length (sinF cosF : ℚ → ℚ) (s : ℚ) (gs gc : ℕ → ℕ → ℚ)
    (gu : ℕ → ℕ → ℕ → ℚ) (gp gq : ℕ → ℕ → ℚ) (sc ec : List ℚ) (oob a : ℚ)
    (kind : String) (ηg ηu : ℕ → ℕ → ℕ → ℚ) (n P : ℕ)
    (hn : 1 ≤ n) (hP : 1 ≤ P) (ha : 0 ≤ a) (hs : 0 ≤ s ∧ s ≤ 1)
    (ht : sc.getD 7 oob ≤ ec.getD 7 oob) :
    (generateSignalsCluster sinF cosF s n gs gc gu gp gq).length = n ∧
    (generateSignalsTraj sc ec oob n P kind a ηg ηu).length = n := by
  constructor
  · simp [generateSignalsCluster]
  · simp [generateSignalsTraj]

/-- C9 witness at a concrete valid input. -/
theorem c9_batch_length_witness :
    (generateSignalsCluster ratId ratId (1/2) 3 halfDraws halfDraws halfDraws3
        halfDraws halfDraws).length = 3 ∧
    (generateSignalsTraj [0, 0, 0, 0, 0, 0, 0, 0] [10, 20, 30, 3/2, 1, 0, 1, 10] 0 3 1
        "gaussian" 0 zeroDraws zeroDraws).length = 3 :=
  c9_batch_length ratId ratId (1/2) halfDraws halfDraws halfDraws3 halfDraws halfDraws
    [0, 0, 0, 0, 0, 0, 0, 0] [10, 20, 30, 3/2, 1, 0, 1, 10] 0 0 "gaussian"
    zeroDraws zeroDraws 3 1 (by norm_num) (by norm_num) le_rfl
    (by norm_num) (by norm_num)

/-- C10: with `clusterStrength = 1` the cos-leg weight `1 - clusterStrength`
vanishes, so the activation is a function of the sin-leg draw alone, and the
whole generated batch is unchanged when the cos-leg draw family is replaced by
any other one. -/
theorem c10_cos_leg_independence (sinF cosF : ℚ → ℚ) (n : ℕ)
    (gs gc gc2 : ℕ → ℕ → ℚ) (gu : ℕ → ℕ → ℕ → ℚ) (gp gq : ℕ → ℕ → ℚ) :
    (∀ r1 r2 r3 : ℚ, clusterActivation sinF cosF 1 r1 r2
        = clusterActivation sinF cosF 1 r1 r3) ∧
    generateSignalsCluster sinF cosF 1 n gs gc gu gp gq
      = generateSignalsCluster sinF cosF 1 n gs gc2 gu gp gq := by
  constructor
  · intro r1 r2 r3
    rw [clusterActivation_strength_one, clusterActivation_strength_one]
  · have h : genSnapshot sinF cosF 1 gs gc gu gp gq
        = genSnapshot sinF cosF 1 gs gc2 gu gp gq := by
      funext i
      simp only [genSnapshot, clusterActivation_strength_one]
    simp only [generateSignalsCluster, h]

/-- C4 (counterexample): the time loop condition is `t <= endCoords[7]`, the
ABSOLUTE end timestamp, not the duration.  For the degenerate trajectory with
shared timestamp 10 and `samplePeriod = 1` the loop runs 10 times and the
retained sample is the interpolated one, not the initial sample, refuting the
claim's "regardless of the absolute value of the shared timestamp". -/
theorem c4_degenerate_loop_runs :
    trajIterCount 10 1 = 10 ∧ (10 : ℕ) ≠ 0 ∧
    generateSignalsTraj [0, 0, 0, 0, 0, 0, 0, 10] [10, 20, 30, 0, 0, 0, 0, 10] 0 1 1
        "gaussian" 0 zeroDraws zeroDraws
      = [[102400, 204800, 307200, 102400, 102400, 102400, 102400, 102400, 102400,
          0, 0, 0]] ∧
    trajInit [0, 0, 0, 0, 0, 0, 0, 10] 0 = [0, 0, 0, 0, 10240, 0, 0, 0, 0, 0, 0, 0] ∧
    [(102400 : ℤ), 204800, 307200, 102400, 102400, 102400, 102400, 102400, 102400,
        0, 0, 0]
      ≠ [0, 0, 0, 0, 10240, 0, 0, 0, 0, 0, 0, 0] := by
  have hn : Int.toNat 10 = 10 := rfl
  refine ⟨by simp [trajIterCount], by decide, ?_, by norm_num [trajInit, cppTrunc], by decide⟩
  norm_num [generateSignalsTraj, trajSignal, trajTimes, trajIterCount, trajInit,
    trajStep, trajLerp, numSamplesTraj, zeroDraws, cppTrunc, List.range_succ, hn]

/-- C4 (amended): a degenerate trajectory yields one Channel Vector holding
only the initial sample, with zero loop iterations, exactly when the shared
timestamp is smaller than the sample period (in particular at timestamp 0);
in general the loop runs `⌊endCoords[7] / samplePeriod⌋` times. -/
theorem c4_degenerate_singleton (sc ec : List ℚ) (oob a : ℚ) (kind : String)
    (ηg ηu : ℕ → ℕ → ℕ → ℚ) (n P : ℕ) (hP : 1 ≤ P)
    (hdeg : sc.getD 7 oob = ec.getD 7 oob) (hT : ec.getD 7 oob < (P : ℚ)) :
    trajIterCount (ec.getD 7 oob) P = 0 ∧
    ∀ sig ∈ generateSignalsTraj sc ec oob n P kind a ηg ηu, sig = trajInit sc oob := by
  have h0 : trajIterCount (ec.getD 7 oob) P = 0 := trajIterCount_eq_zero hP hT
  refine ⟨h0, ?_⟩
  intro sig hsig
  simp only [generateSignalsTraj, List.mem_map] at hsig
  obtain ⟨i, _, rfl⟩ := hsig
  simp only [trajSignal, trajTimes, h0, List.range_zero, List.map_nil, List.foldl_nil]

/-- C4 witness: a degenerate trajectory at shared timestamp 0. -/
theorem c4_degenerate_singleton_witness :
    trajIterCount (([0, 0, 0, 0, 0, 0, 0, 0] : List ℚ).getD 7 0) 1 = 0 ∧
    trajSignal [0, 0, 0, 0, 0, 0, 0, 0] [0, 0, 0, 0, 0, 0, 0, 0] 0 1 "gaussian" 1
        zeroDraws zeroDraws 0
      = trajInit [0, 0, 0, 0, 0, 0, 0, 0] 0 := by
  have h := c4_degenerate_singleton [0, 0, 0, 0, 0, 0, 0, 0] [0, 0, 0, 0, 0, 0, 0, 0] 0 1
    "gaussian" zeroDraws zeroDraws 1 1 le_rfl rfl (by norm_num)
  exact ⟨h.1, h.2 _ (by simp [generateSignalsTraj])⟩

/-- C5 (counterexample): with the unrecognized noise kind "none", channels 0-2
do NOT receive the interpolation; they keep their initialization values (0
here), while the interpolated, scaled channel value at the last step is 9309. -/
theorem c5_unrecognized_skips_channels :
    generateSignalsTraj [0, 0, 0, 0, 0, 0, 0, 0] [10, 20, 30, 3/2, 1, 0, 1, 10] 0 1 1
        "none" 0 zeroDraws zeroDraws
      = [[0, 0, 0, 9309, 9309, 9309, 9309, 9309, 9309, 0, 0, 0]] ∧
    cppTrunc (trajLerp [0, 0, 0, 0, 0, 0, 0, 0] [10, 20, 30, 3/2, 1, 0, 1, 10] 0 11 0 10
        * 1024) = 9309 ∧
    (0 : ℤ) ≠ 9309 := by
  have hn : Int.toNat 10 = 10 := rfl
  have hg : ("none" = "gaussian") = False := by decide
  have hu : ("none" = "uniform") = False := by decide
  refine ⟨?_, by norm_num [trajLerp, cppTrunc], by decide⟩
  norm_num [generateSignalsTraj, trajSignal, trajTimes, trajIterCount, trajInit,
    trajStep, trajLerp, numSamplesTraj, zeroDraws, cppTrunc, List.range_succ, hn, hg, hu]

/-- C5 (amended): for a noise kind that is neither "gaussian" nor "uniform"
the noise branch never writes channels 0-2, so in every generated signal they
retain the initialization values `int(startCoords[3..5] * 1024)` (the
orientation components), not the interpolated positions. -/
theorem c5_unrecognized_keeps_init (sc ec : List ℚ) (oob a : ℚ) (kind : String)
    (ηg ηu : ℕ → ℕ → ℕ → ℚ) (n P : ℕ)
    (h1 : kind ≠ "gaussian") (h2 : kind ≠ "uniform") :
    ∀ sig ∈ generateSignalsTraj sc ec oob n P kind a ηg ηu,
      sig.getD 0 0 = cppTrunc (sc.getD 3 oob * 1024) ∧
      sig.getD 1 0 = cppTrunc (sc.getD 4 oob * 1024) ∧
      sig.getD 2 0 = cppTrunc (sc.getD 5 oob * 1024) := by
  intro sig hsig
  simp only [generateSignalsTraj, List.mem_map] at hsig
  obtain ⟨i, _, rfl⟩ := hsig
  have hpres := trajFoldPreserve
    (trajStep sc ec oob (numSamplesTraj sc ec oob P) kind a ηg ηu i)
    (fun s t => by simp [trajStep, h1, h2])
    (trajTimes (ec.getD 7 oob) P) (trajInit sc oob)
  simpa [trajSignal, trajInit] using hpres

/-- C5 witness: the unrecognized kind "none" at a concrete input. -/
theorem c5_unrecognized_keeps_init_witness :
    (trajSignal [0, 0, 0, 0, 0, 0, 0, 0] [10, 20, 30, 3/2, 1, 0, 1, 10] 0 1 "none" 0
        zeroDraws zeroDraws 0).getD 0 0
      = cppTrunc (([0, 0, 0, 0, 0, 0, 0, 0] : List ℚ).getD 3 0 * 1024) ∧
    (trajSignal [0, 0, 0, 0, 0, 0, 0, 0] [10, 20, 30, 3/2, 1, 0, 1, 10] 0 1 "none" 0
        zeroDraws zeroDraws 0).getD 1 0
      = cppTrunc (([0, 0, 0, 0, 0, 0, 0, 0] : List ℚ).getD 4 0 * 1024) ∧
    (trajSignal [0, 0, 0, 0, 0, 0, 0, 0] [10, 20, 30, 3/2, 1, 0, 1, 10] 0 1 "none" 0
        zeroDraws zeroDraws 0).getD 2 0
      = cppTrunc (([0, 0, 0, 0, 0, 0, 0, 0] : List ℚ).getD 5 0 * 1024) :=
  c5_unrecognized_keeps_init [0, 0, 0, 0, 0, 0, 0, 0] [10, 20, 30, 3/2, 1, 0, 1, 10] 0 0
    "none" zeroDraws zeroDraws 1 1 (by decide) (by decide) _
    (by simp [generateSignalsTraj])

/-- C3 (counterexample): the code truncates (`static_cast<int>`), it does not
round.  At step `i = 1` of the claim's scenario the computed channel-0 value is
930, while the claim's formula `round(1 * 10 / 11 * 1024)` gives 931. -/
theorem c3_round_formula_fails :
    cppTrunc (trajLerp [0, 0, 0, 0, 0, 0, 0, 0] [10, 20, 30, 3/2, 1, 0, 1, 10] 0 11 0 1
        * 1024) = 930 ∧
    round ((1 : ℚ) * 10 / 11 * 1024) = 931 ∧
    (930 : ℤ) ≠ 931 := by
  refine ⟨by norm_num [trajLerp, cppTrunc], ?_, by decide⟩
  rw [round_eq]
  norm_num

/-- C3 (amended): with `noiseAmplitude = 0` the per-step value written to
channels 0-2 is the TRUNCATED scaled interpolation `int(lerp * 1024)` (for any
noise draws), and in the claim's scenario each generated signal is a single
Channel Vector retaining the final step, whose channel 0 is
`trunc(10 * 10 / 11 * 1024) = 9309`; the per-step values `trunc(i * 10/11 * 1024)`
for `i < 10` are computed and then overwritten.  (The end pose's orientation
components are never read, so they are universally quantified below where the
claim has pi/2 and pi/4.) -/
theorem c3_exact_interpolation_truncated :
    (∀ (sc ec : List ℚ) (oob : ℚ) (ns : ℤ) (ηg ηu : ℕ → ℕ → ℕ → ℚ) (i t : ℕ)
        (s : List ℤ) (k : ℕ), k < 3 →
        (trajStep sc ec oob ns "gaussian" 0 ηg ηu i s t).getD k 0
          = cppTrunc (trajLerp sc ec oob ns k t * 1024)) ∧
    (∀ (e3 e4 : ℚ) (ηg ηu : ℕ → ℕ → ℕ → ℚ),
        generateSignalsTraj [0, 0, 0, 0, 0, 0, 0, 0] [10, 20, 30, e3, e4, 0, 1, 10] 0 1 1
            "gaussian" 0 ηg ηu
          = [[9309, 18618, 27927, 9309, 9309, 9309, 9309, 9309, 9309, 0, 0, 0]]) := by
  constructor
  · intro sc ec oob ns ηg ηu i t s k hk
    interval_cases k <;> simp [trajStep, zeroDraws]
  · intro e3 e4 ηg ηu
    rw [generateSignalsTraj_amp_zero]
    have hn : Int.toNat 10 = 10 := rfl
    norm_num [generateSignalsTraj, trajSignal, trajTimes, trajIterCount, trajInit,
      trajStep, trajLerp, numSamplesTraj, zeroDraws, cppTrunc, List.range_succ, hn]

/-- C3 witness: the per-step identity at channel 0, step 1, and the scenario
output with the all-zero draw family. -/
theorem c3_exact_interpolation_truncated_witness :
    (trajStep [0, 0, 0, 0, 0, 0, 0, 0] [10, 20, 30, 3/2, 1, 0, 1, 10] 0 11 "gaussian" 0
        zeroDraws zeroDraws 0 (trajInit [0, 0, 0, 0, 0, 0, 0, 0] 0) 1).getD 0 0
      = cppTrunc (trajLerp [0, 0, 0, 0, 0, 0, 0, 0] [10, 20, 30, 3/2, 1, 0, 1, 10] 0 11 0 1
        * 1024) ∧
    generateSignalsTraj [0, 0, 0, 0, 0, 0, 0, 0] [10, 20, 30, 3/2, 1, 0, 1, 10] 0 1 1
        "gaussian" 0 zeroDraws zeroDraws
      = [[9309, 18618, 27927, 9309, 9309, 9309, 9309, 9309, 9309, 0, 0, 0]] :=
  ⟨c3_exact_interpolation_truncated.1 [0, 0, 0, 0, 0, 0, 0, 0]
      [10, 20, 30, 3/2, 1, 0, 1, 10] 0 11 zeroDraws zeroDraws 0 1
      (trajInit [0, 0, 0, 0, 0, 0, 0, 0] 0) 0 (by norm_num),
   c3_exact_interpolation_truncated.2 (3/2) 1 zeroDraws zeroDraws⟩

/-- C1: the claim (and spec) say each trajectory-mode Signal is a sequence of
`numSamples = floor((end.time - start.time)/samplePeriod) + 1` Channel Vectors.
The code computes `numSamples` (11 here) but stores each signal as a single
`std::array<int, 12>` whose channels every time step overwrites in place, so
the returned batch holds exactly one 12-element Channel Vector per signal and
no time series at all.  This theorem evaluates the code at the failing input
(duration 10, samplePeriod 1, numSignals 2). -/
theorem c1_signal_is_single_channel_vector :
    numSamplesTraj [0, 0, 0, 0, 0, 0, 0, 0] [10, 20, 30, 3/2, 1, 0, 1, 10] 0 1 = 11 ∧
    generateSignalsTraj [0, 0, 0, 0, 0, 0, 0, 0] [10, 20, 30, 3/2, 1, 0, 1, 10] 0 2 1
        "gaussian" 0 zeroDraws zeroDraws
      = [[9309, 18618, 27927, 9309, 9309, 9309, 9309, 9309, 9309, 0, 0, 0],
         [9309, 18618, 27927, 9309, 9309, 9309, 9309, 9309, 9309, 0, 0, 0]] ∧
    ([(9309 : ℤ), 18618, 27927, 9309, 9309, 9309, 9309, 9309, 9309, 0, 0, 0]).length
      = 12 := by
  have hn : Int.toNat 10 = 10 := rfl
  refine ⟨by norm_num [numSamplesTraj, cppTrunc], ?_, by decide⟩
  norm_num [generateSignalsTraj, trajSignal, trajTimes, trajIterCount, trajInit,
    trajStep, trajLerp, numSamplesTraj, zeroDraws, cppTrunc, List.range_succ, hn]

/-- C8 (counterexample): invalid configurations are not rejected.  With the
invalid `clusterStrength = 2` the cluster generator happily performs all the
generation work and returns a complete 12-channel snapshot, and with the
invalid `numSignals = 0` it returns an empty batch; no error is ever reported
(the return type carries none). -/
theorem c8_invalid_config_accepted :
    generateSignalsCluster ratId ratId 2 1 halfDraws halfDraws halfDraws3
        halfDraws halfDraws
      = [[25, 25, 25, 25, 25, 25, 25, 25, 0, 0, 0, 0]] ∧
    generateSignalsCluster ratId ratId 2 0 halfDraws halfDraws halfDraws3
        halfDraws halfDraws = [] := by
  constructor
  · norm_num [generateSignalsCluster, genSnapshot, rawSnapshot, postProcess,
      clusters, clusterSizes, clusterActivation, clampChannel, cppTrunc,
      halfDraws, halfDraws3, ratId, List.range_succ, List.enum, List.enumFrom]
  · rfl

/-- If the first signal's computation fails, the whole checked batch fails. -/
theorem signalLoopChecked_none (f : ℕ → Option (List ℤ)) (h : f 0 = none) (m : ℕ) :
    signalLoopChecked f (List.range (m + 1)) = none := by
  rw [List.range_succ_eq_map]
  simp [signalLoopChecked, h]

/-- C7 (amended): the initialization loop reads `startCoords[j + 3]` for
`j = 0 … 5`, so at `j = 5` it reads index 8 of the 8-element array.  Under the
checked (`Option`-valued) embedding this read returns `none`, and therefore the
whole trajectory generator returns `none`, for every input that requests at
least one signal.  (When `numSignals = 0` the loop body never runs — see the
counterexample — hence the `1 ≤ numSignals` hypothesis.) -/
theorem c7_oob_read_fails (a0 a1 a2 a3 a4 a5 a6 a7 b0 b1 b2 b3 b4 b5 b6 b7 : ℚ)
    (n P : ℕ) (kind : String) (amp : ℚ) (ηg ηu : ℕ → ℕ → ℕ → ℚ) (hn : 1 ≤ n) :
    generateSignalsTrajChecked [a0, a1, a2, a3, a4, a5, a6, a7]
      [b0, b1, b2, b3, b4, b5, b6, b7] n P kind amp ηg ηu = none := by
  obtain ⟨m, rfl⟩ := Nat.exists_eq_add_of_le hn
  rw [Nat.add_comm 1 m]
  show signalLoopChecked
      (trajSignalChecked [a0, a1, a2, a3, a4, a5, a6, a7]
        [b0, b1, b2, b3, b4, b5, b6, b7]
        (cppTrunc (b7 - a7) / (P : ℤ) + 1) P kind amp ηg ηu)
      (List.range (m + 1)) = none
  exact signalLoopChecked_none _ rfl m

/-- C7 (counterexample): with `numSignals = 0` the signal loop never runs, no
out-of-bounds read happens, and the checked generator returns `some []` rather
than failing — so the claim's "for all inputs" is too strong. -/
theorem c7_zero_signals_no_failure :
    generateSignalsTrajChecked [0, 0, 0, 0, 0, 0, 0, 0] [0, 0, 0, 0, 0, 0, 0, 0] 0 1
        "gaussian" 1 zeroDraws zeroDraws = some [] ∧
    some ([] : List (List ℤ)) ≠ none :=
  ⟨rfl, by simp⟩

/-- C7 witness: the checked generator fails at a concrete input with one
requested signal. -/
theorem c7_oob_read_fails_witness :
    generateSignalsTrajChecked [0, 0, 0, 0, 0, 0, 0, 0] [10, 20, 30, 3/2, 1, 0, 1, 10]
        1 1 "gaussian" 1 zeroDraws zeroDraws = none :=
  c7_oob_read_fails 0 0 0 0 0 0 0 0 10 20 30 (3/2) 1 0 1 10 1 1 "gaussian" 1
    zeroDraws zeroDraws le_rfl

/-- C8 witness: the amended statement at a concretely invalid configuration
(`clusterStrength = 2`, `noiseAmplitude = -1`, `numSignals = 0`). -/
theorem c8_no_validation_witness :
    (generateSignalsCluster ratId ratId 2 0 halfDraws halfDraws halfDraws3
        halfDraws halfDraws).length = 0 ∧
    (generateSignalsTraj [0, 0, 0, 0, 0, 0, 0, 0] [0, 0, 0, 0, 0, 0, 0, 0] 0 0 1
        "gaussian" (-1) zeroDraws zeroDraws).length = 0 :=
  c8_no_validation ratId ratId 2 halfDraws halfDraws halfDraws3 halfDraws halfDraws
    [0, 0, 0, 0, 0, 0, 0, 0] [0, 0, 0, 0, 0, 0, 0, 0] 0 (-1) "gaussian"
    zeroDraws zeroDraws 0 1 le_rfl

/-- C6 witness: the bounds at a concrete input with uniform draws `1/2`, at
channel 0 of the first snapshot. -/
theorem c6_cluster_output_bounds_witness :
    (0 ≤ clampChannel ((rawSnapshot
          (fun j => clusterActivation ratId ratId (1/2) (halfDraws 0 j) (halfDraws 0 j))
          halfDraws3 0).getD 0 0) ∧
      clampChannel ((rawSnapshot
          (fun j => clusterActivation ratId ratId (1/2) (halfDraws 0 j) (halfDraws 0 j))
          halfDraws3 0).getD 0 0) ≤ 200) ∧
    (-25 ≤ (genSnapshot ratId ratId (1/2) halfDraws halfDraws halfDraws3 halfDraws
        halfDraws 0).getD 0 0 ∧
      (genSnapshot ratId ratId (1/2) halfDraws halfDraws halfDraws3 halfDraws
        halfDraws 0).getD 0 0 ≤ 225) := by
  have h := c6_cluster_output_bounds ratId ratId (1/2) 1 halfDraws halfDraws halfDraws3
    halfDraws halfDraws (fun i c => by norm_num [halfDraws])
  have heval : genSnapshot ratId ratId (1/2) halfDraws halfDraws halfDraws3 halfDraws
      halfDraws 0 = [25, 25, 25, 25, 25, 25, 25, 25, 0, 0, 0, 0] := by
    norm_num [genSnapshot, rawSnapshot, postProcess, clusters, clusterSizes,
      clusterActivation, clampChannel, cppTrunc, halfDraws, halfDraws3, ratId,
      List.range_succ, List.enum, List.enumFrom]
  refine ⟨h.1 0 0, ?_⟩
  refine h.2 (genSnapshot ratId ratId (1/2) halfDraws halfDraws halfDraws3 halfDraws
      halfDraws 0) (by simp [generateSignalsCluster])
    ((genSnapshot ratId ratId (1/2) halfDraws halfDraws halfDraws3 halfDraws
      halfDraws 0).getD 0 0) ?_
  rw [heval]
  decide

end BrainStuff
